import Mathlib

/-!
Verification of the UA-Project-Transfer core: a shallow embedding of the
reconciliation engine (`samples_differ` / `check_samples`), the transactional
poster (`create_clarity_objs` / `post_project` / `delete_items`), the
researcher-creation idempotence wrapper (`create_researcher`), the batched
container and sample posting (`batch_post_containers` / `batch_post_samples`),
and the routing layer (`route_samples` / `route_strategy`).

Remote LIMS interactions are embedded as explicit inputs: the result of each
REST call is a parameter (an `Except` value for a fallible call, a function for
a lookup), and the embedding records which calls are issued where the claims
need that (step traces, remote-call counts).
-/

/-- The `Sample` namedtuple of project_transfer.py: `(name, location, container)`.
On the Clarity side `container` first holds a container uri, later a container
name. -/
structure STuple where
  name : String
  location : String
  container : String
  deriving DecidableEq, Repr

/-- The container object carried by a form sample (`sample.con`). -/
structure Container where
  name : String
  con_type : String
  con_type_uri : String
  uri : String
  deriving DecidableEq, Repr

/-- A form sample as extracted from iLab (`curr_form.samples` element). -/
structure FSample where
  name : String
  location : String
  con : Container
  udf_to_value : List (String × String)
  adapter : Option String
  uri : String
  deriving DecidableEq, Repr

/-- The loop body of `check_samples`: partitions the form samples into those
kept (container name not already in Clarity) and the names of those dropped. -/
def check_samples_loop (container_names : List String) :
    List FSample → List FSample × List String
  | [] => ([], [])
  | s :: rest =>
    let r := check_samples_loop container_names rest
    if s.con.name ∈ container_names then
      (r.1, s.name :: r.2)
    else
      (s :: r.1, r.2)

/-- `check_samples` of project_transfer.py: removes samples whose container
was already transferred; returns the kept samples and the reported names. -/
def check_samples (samples : List FSample) (container_names : List String) :
    List FSample × List String :=
  check_samples_loop container_names samples

/-- The `(name, location, container-name)` triple a form sample compares with:
`Sample(sample.name, sample.location, sample.con.name)`. -/
def sample_triple (s : FSample) : STuple :=
  ⟨s.name, s.location, s.con.name⟩

/-- The `prj_smp_names` list built by `samples_differ`: empty when the Clarity
project has no samples, otherwise each fetched sample with its container uri
resolved to a container name through `con_uri_name`. -/
def existing_triples (ids : List String) (info : List STuple)
    (un : String → String) : List STuple :=
  if ids.length = 0 then []
  else info.map (fun t => ⟨t.name, t.location, un t.container⟩)

/-- The values of the `con_uri_name` dictionary passed to `check_samples`:
empty when the Clarity project has no samples, otherwise the name of each
distinct container uri appearing in the fetched sample info. -/
def existing_con_names (ids : List String) (info : List STuple)
    (un : String → String) : List String :=
  if ids.length = 0 then []
  else ((info.map (fun t => t.container)).eraseDups).map un

/-- Remote GET round trips issued by `samples_differ`: none when the project
sample list is empty, otherwise the three batched GETs of `get_sample_info`
(samples, artifacts) and `get_containers` (containers). -/
def remote_calls_made (ids : List String) : Nat :=
  if ids.length = 0 then 0 else 3

/-- The outcome of `samples_differ`: the new `curr_form.samples`, the sample
names reported by `check_samples`, and the remote calls performed. -/
structure DiffResult where
  samples : List FSample
  reported : List String
  remoteCalls : Nat
  deriving DecidableEq, Repr

/-- `samples_differ` of project_transfer.py: keeps the form samples whose
triple is not already in Clarity, then runs `check_samples` on the result. -/
def samples_differ (ids : List String) (fs : List FSample) (info : List STuple)
    (un : String → String) : DiffResult :=
  let prj_smp_names := existing_triples ids info un
  let con_names := existing_con_names ids info un
  let samples_to_add :=
    fs.filter (fun s => decide (sample_triple s ∉ prj_smp_names))
  let ck := check_samples samples_to_add con_names
  ⟨ck.1, ck.2, remote_calls_made ids⟩

/-- Modelled from the spec: `reconcile(S1, S2)` as the spec states it, a pure
set difference keeping each incoming sample whose triple is absent from the
existing triples (used to compare the spec statement against the code). -/
def reconcile_spec (fs : List FSample) (etriples : List STuple) : List FSample :=
  fs.filter (fun s => decide (sample_triple s ∉ etriples))

theorem check_samples_loop_eq (cn : List String) (l : List FSample) :
    check_samples_loop cn l
      = (l.filter (fun s => decide (s.con.name ∉ cn)),
         (l.filter (fun s => decide (s.con.name ∈ cn))).map (fun s => s.name)) := by
  induction l with
  | nil => simp [check_samples_loop]
  | cons s rest ih =>
    by_cases h : s.con.name ∈ cn <;>
      simp [check_samples_loop, h, ih, List.filter_cons]

theorem samples_differ_eq_filter (ids : List String) (fs : List FSample)
    (info : List STuple) (un : String → String) :
    (samples_differ ids fs info un).samples
      = fs.filter (fun s =>
          decide (sample_triple s ∉ existing_triples ids info un)
          && decide (s.con.name ∉ existing_con_names ids info un)) := by
  simp only [samples_differ, check_samples, check_samples_loop_eq,
    List.filter_filter]
  congr 1
  funext a
  exact Bool.and_comm _ _

theorem samples_differ_reported_eq (ids : List String) (fs : List FSample)
    (info : List STuple) (un : String → String) :
    (samples_differ ids fs info un).reported
      = ((fs.filter (fun s =>
            decide (sample_triple s ∉ existing_triples ids info un))).filter
          (fun s => decide (s.con.name ∈ existing_con_names ids info un))).map
          (fun s => s.name) := by
  simp only [samples_differ, check_samples, check_samples_loop_eq]

/-- C5: if the Clarity project has no samples (`len(prj_smp_limsids) == 0`),
`samples_differ` keeps all incoming samples unchanged, reports nothing, and
performs zero remote calls for sample or container resolution. -/
theorem samples_differ_empty_existing (fs : List FSample) (info : List STuple)
    (un : String → String) :
    samples_differ [] fs info un = ⟨fs, [], 0⟩ := by
  have h1 : (samples_differ [] fs info un).samples = fs := by
    rw [samples_differ_eq_filter]
    apply List.filter_eq_self.mpr
    intro s _
    simp [existing_triples, existing_con_names]
  have h2 : (samples_differ [] fs info un).reported = [] := by
    rw [samples_differ_reported_eq]
    simp [existing_con_names]
  have h3 : (samples_differ [] fs info un).remoteCalls = 0 := by
    simp [samples_differ, remote_calls_made]
  cases hsd : samples_differ [] fs info un
  simp_all

/-- C2 counterexample: `samples_differ` is not the pure triple set-difference
the claim states.  With one existing Clarity sample `(A, 1)` in the container
named Plate1 and one incoming sample `(B, 2)` destined for a local container
also named Plate1, the incoming triple is novel, so the spec difference keeps
the sample, but `samples_differ` drops it via the container-name check. -/
theorem samples_differ_not_pure_diff :
    (samples_differ (["LIMS1"])
        ([⟨"B", "2", ⟨"Plate1", "96 well plate", "", ""⟩, [], none, ""⟩])
        ([⟨"A", "1", "conuri1"⟩]) (fun _ => "Plate1")).samples
      ≠ reconcile_spec
          ([⟨"B", "2", ⟨"Plate1", "96 well plate", "", ""⟩, [], none, ""⟩])
          (existing_triples (["LIMS1"]) ([⟨"A", "1", "conuri1"⟩])
            (fun _ => "Plate1")) := by
  decide

/-- C2 (amended): `samples_differ` leaves in the form exactly the incoming
samples whose triple is absent from the existing triples AND whose container
name is not among the existing container names; it is idempotent (a second
reconciliation of the result against the same existing data changes nothing
and reports nothing). -/
theorem samples_differ_char_and_idem (ids : List String) (fs : List FSample)
    (info : List STuple) (un : String → String) :
    (samples_differ ids fs info un).samples
      = fs.filter (fun s =>
          decide (sample_triple s ∉ existing_triples ids info un)
          && decide (s.con.name ∉ existing_con_names ids info un))
    ∧ (samples_differ ids (samples_differ ids fs info un).samples info un).samples
        = (samples_differ ids fs info un).samples
    ∧ (samples_differ ids (samples_differ ids fs info un).samples info un).reported
        = [] := by
  refine ⟨samples_differ_eq_filter ids fs info un, ?_, ?_⟩
  · rw [samples_differ_eq_filter ids (samples_differ ids fs info un).samples info un]
    apply List.filter_eq_self.mpr
    intro s hs
    rw [samples_differ_eq_filter] at hs
    exact (List.mem_filter.mp hs).2
  · rw [samples_differ_reported_eq]
    apply List.map_eq_nil_iff.mpr
    apply List.filter_eq_nil_iff.mpr
    intro s hs
    have hs2 := List.mem_filter.mp hs
    rw [samples_differ_eq_filter] at hs2
    have := (List.mem_filter.mp hs2.1).2
    simp only [Bool.and_eq_true, decide_eq_true_eq] at this
    simp [this.2]

/-- C4: after the existence diff, any kept sample whose container name matches
the name of a container already present in Clarity is removed from the form
and its name reported, even when its own triple was novel. -/
theorem container_conflict_rejection (ids : List String) (fs : List FSample)
    (info : List STuple) (un : String → String) (s : FSample)
    (hmem : s ∈ fs)
    (hnovel : sample_triple s ∉ existing_triples ids info un)
    (hcoll : s.con.name ∈ existing_con_names ids info un) :
    s ∉ (samples_differ ids fs info un).samples
    ∧ s.name ∈ (samples_differ ids fs info un).reported := by
  constructor
  · rw [samples_differ_eq_filter]
    intro hcontra
    have := (List.mem_filter.mp hcontra).2
    simp only [Bool.and_eq_true, decide_eq_true_eq] at this
    exact this.2 hcoll
  · rw [samples_differ_reported_eq]
    apply List.mem_map.mpr
    refine ⟨s, ?_, rfl⟩
    apply List.mem_filter.mpr
    refine ⟨List.mem_filter.mpr ⟨hmem, by simpa using hnovel⟩, by simpa using hcoll⟩

/-- C4 witness: a concrete novel-triple sample in an already-present container
is removed and reported. -/
theorem container_conflict_rejection_witness :
    (⟨"B", "2", ⟨"Plate1", "96 well plate", "", ""⟩, [], none, ""⟩ : FSample)
        ∉ (samples_differ (["LIMS1"])
            ([⟨"B", "2", ⟨"Plate1", "96 well plate", "", ""⟩, [], none, ""⟩])
            ([⟨"A", "1", "conuri1"⟩]) (fun _ => "Plate1")).samples
    ∧ "B" ∈ (samples_differ (["LIMS1"])
            ([⟨"B", "2", ⟨"Plate1", "96 well plate", "", ""⟩, [], none, ""⟩])
            ([⟨"A", "1", "conuri1"⟩]) (fun _ => "Plate1")).reported :=
  container_conflict_rejection (["LIMS1"])
    ([⟨"B", "2", ⟨"Plate1", "96 well plate", "", ""⟩, [], none, ""⟩])
    ([⟨"A", "1", "conuri1"⟩]) (fun _ => "Plate1")
    ⟨"B", "2", ⟨"Plate1", "96 well plate", "", ""⟩, [], none, ""⟩
    (by decide) (by decide) (by decide)

/-- The researcher table of the Clarity instance, as visible through the
`researchers` REST resource: rows of `(first_name, last_name, uri)`. -/
structure ResDB where
  rows : List (String × String × String)
  deriving DecidableEq, Repr

/-- `ProjectLimsApi.get_researcher_uri`: the uris of every researcher whose
first and last name match the given ones. -/
def get_researcher_uri (db : ResDB) (first last : String) : List String :=
  (db.rows.filter (fun r => decide (r.1 = first ∧ r.2.1 = last))).map
    (fun r => r.2.2)

/-- `ProjectLimsApi.post_researcher`: raises `POSTNameCollision` (the `error`
branch) when a researcher with that name already exists; otherwise posts the
researcher and returns the uri Clarity assigned (`freshUri`). -/
def post_researcher (db : ResDB) (freshUri first last email : String) :
    Except Unit (String × ResDB) :=
  match get_researcher_uri db first last with
  | [] => Except.ok (freshUri, ⟨db.rows ++ [(first, last, freshUri)]⟩)
  | _ :: _ => Except.error ()

/-- `LimsUtility.create_researcher`: tries `post_researcher`; on
`POSTNameCollision` falls back to `get_researcher_uri(...)[0]`.  A `none`
result models the `IndexError` the `[0]` access would raise on an empty
lookup. -/
def create_researcher (db : ResDB) (freshUri first last email : String) :
    Option (String × ResDB) :=
  match post_researcher db freshUri first last email with
  | .ok (uri, db2) => some (uri, db2)
  | .error _ =>
    match (get_researcher_uri db first last).head? with
    | some u => some (u, db)
    | none => none

theorem get_researcher_uri_post (db : ResDB) (freshUri first last : String) :
    get_researcher_uri ⟨db.rows ++ [(first, last, freshUri)]⟩ first last
      = get_researcher_uri db first last ++ [freshUri] := by
  simp [get_researcher_uri, List.filter_append]

/-- C10: the name-collision fallback in `create_researcher` is index-safe:
`post_researcher` raises `POSTNameCollision` only when `get_researcher_uri`
is non-empty, so the fallback `[0]` access never hits an empty list and
`create_researcher` always returns a researcher uri. -/
theorem create_researcher_index_safe (db : ResDB)
    (freshUri first last email : String) :
    (create_researcher db freshUri first last email).isSome = true := by
  unfold create_researcher post_researcher
  cases h : get_researcher_uri db first last with
  | nil => simp
  | cons u us => simp [h]

/-- C6: researcher creation is idempotent: two successive `create_researcher`
calls with identical first and last names return the same uri and the second
call leaves the researcher table unchanged (no duplicate); on the second call
the collision is handled by reusing the first matching uri. -/
theorem create_researcher_idempotent (db : ResDB)
    (fresh1 fresh2 first last email : String) :
    ∃ u db1,
      create_researcher db fresh1 first last email = some (u, db1)
      ∧ create_researcher db1 fresh2 first last email = some (u, db1) := by
  cases h : get_researcher_uri db first last with
  | nil =>
    refine ⟨fresh1, ⟨db.rows ++ [(first, last, fresh1)]⟩, ?_, ?_⟩
    · unfold create_researcher post_researcher
      rw [h]
    · unfold create_researcher post_researcher
      rw [get_researcher_uri_post db fresh1 first last, h]
      simp [get_researcher_uri_post, h]
  | cons u us =>
    refine ⟨u, db, ?_, ?_⟩ <;>
      · unfold create_researcher post_researcher
        rw [h]
        simp

/-- The per-sample validation loop of `ProjectLimsApi.batch_post_containers`:
renames a container that collides with an existing container name (appending
the project name), then resolves its container type against the catalog of
known container types; an unknown type raises `NotImplementedError` (the
`error` branch, carrying the offending type) before any POST is issued. -/
def validate_cons (foundCons : List String) (catalog : List (String × String))
    (prjName : String) : List FSample → Except String (List FSample)
  | [] => Except.ok []
  | s :: rest =>
    let s1 :=
      if s.con.name ∈ foundCons then
        { s with con := { s.con with name := s.con.name ++ "-" ++ prjName } }
      else s
    match List.lookup s1.con.con_type catalog with
    | some typeUri =>
      match validate_cons foundCons catalog prjName rest with
      | .ok rest1 =>
        Except.ok ({ s1 with con := { s1.con with con_type_uri := typeUri } } :: rest1)
      | .error t => Except.error t
    | none => Except.error s1.con.con_type

/-- `ProjectLimsApi.batch_post_containers`: validates every sample, then
issues a single `containers/batch/create` POST over the distinct
`(name, type-uri)` pairs.  The second component counts the container-create
POST calls actually issued. -/
def batch_post_containers (foundCons : List String)
    (catalog : List (String × String))
    (postFn : List (String × String) → List String)
    (samples : List FSample) (prjName : String) :
    Except String (List String) × Nat :=
  match validate_cons foundCons catalog prjName samples with
  | .error t => (Except.error t, 0)
  | .ok samples1 =>
    let con_infos := (samples1.map (fun s => (s.con.name, s.con.con_type_uri))).eraseDups
    (Except.ok (postFn con_infos), 1)

theorem validate_cons_unknown_type (foundCons : List String)
    (catalog : List (String × String)) (prjName : String)
    (l : List FSample) (s : FSample) (hs : s ∈ l)
    (hbad : List.lookup s.con.con_type catalog = none) :
    ∃ t, validate_cons foundCons catalog prjName l = Except.error t := by
  induction l with
  | nil => cases hs
  | cons a rest ih =>
    rcases List.mem_cons.mp hs with heq | hmem
    · subst heq
      by_cases hc : s.con.name ∈ foundCons <;> simp [validate_cons, hc, hbad]
    · obtain ⟨t, ht⟩ := ih hmem
      by_cases hc : a.con.name ∈ foundCons <;>
        cases hlk : List.lookup a.con.con_type catalog <;>
          simp [validate_cons, hc, hlk, ht]

/-- C7: if any sample in the batch carries a container type absent from the
container-type catalog, `batch_post_containers` fails for the whole batch and
issues zero container-create POST calls, so the container step creates
nothing and leaves nothing of its own to roll back. -/
theorem unknown_container_type_fatal (foundCons : List String)
    (catalog : List (String × String))
    (postFn : List (String × String) → List String)
    (samples : List FSample) (prjName : String) (s : FSample)
    (hs : s ∈ samples)
    (hbad : List.lookup s.con.con_type catalog = none) :
    (∃ t, (batch_post_containers foundCons catalog postFn samples prjName).1
        = Except.error t)
    ∧ (batch_post_containers foundCons catalog postFn samples prjName).2 = 0 := by
  obtain ⟨t, ht⟩ := validate_cons_unknown_type foundCons catalog prjName samples s hs hbad
  unfold batch_post_containers
  rw [ht]
  exact ⟨⟨t, rfl⟩, rfl⟩

/-- C7 witness: a concrete batch with an unrecognized container type fails
with zero create calls. -/
theorem unknown_container_type_fatal_witness :
    (∃ t, (batch_post_containers []
        ([("96 well plate", "ctu96")]) (fun _ => ["conuri9"])
        ([⟨"B", "2", ⟨"Plate1", "384 well plate", "", ""⟩, [], none, ""⟩])
        ("ReqPrj")).1 = Except.error t)
    ∧ (batch_post_containers []
        ([("96 well plate", "ctu96")]) (fun _ => ["conuri9"])
        ([⟨"B", "2", ⟨"Plate1", "384 well plate", "", ""⟩, [], none, ""⟩])
        ("ReqPrj")).2 = 0 :=
  unknown_container_type_fatal []
    ([("96 well plate", "ctu96")]) (fun _ => ["conuri9"])
    ([⟨"B", "2", ⟨"Plate1", "384 well plate", "", ""⟩, [], none, ""⟩])
    ("ReqPrj")
    ⟨"B", "2", ⟨"Plate1", "384 well plate", "", ""⟩, [], none, ""⟩
    (by decide) (by decide)

/-- The UDF filter `batch_post_samples` applies to each sample payload:
only fields whose name Clarity knows survive. -/
def strip_udfs (validUdfs : List String) (udfs : List (String × String)) :
    List (String × String) :=
  udfs.filter (fun u => decide (u.1 ∈ validUdfs))

/-- One sample fragment of the rendered `samples/batch/create` document, after
the unknown-UDF tags have been decomposed. -/
structure SubmittedSample where
  name : String
  prj_uri : String
  location : String
  con_uri : String
  udfs : List (String × String)
  deriving DecidableEq, Repr

/-- `ProjectLimsApi.batch_post_samples`, up to the single batch POST: renders
one fragment per sample against the project uri, then strips every UDF tag
whose name is not a known Sample UDF.  The result is the submitted batch. -/
def batch_post_samples (validUdfs : List String) (prjUri : String)
    (samples : List FSample) : List SubmittedSample :=
  samples.map (fun s =>
    ⟨s.name, prjUri, s.location, s.con.uri, strip_udfs validUdfs s.udf_to_value⟩)

/-- The LIMS-side acceptance condition on a submitted batch: a batch POST
fails when any fragment carries a UDF unknown to the Sample schema. -/
def batch_udf_check (validUdfs : List String) (batch : List SubmittedSample) : Bool :=
  batch.all (fun t => t.udfs.all (fun u => decide (u.1 ∈ validUdfs)))

/-- C8: an unknown UDF is stripped from its sample payload before the batch
submission: the submitted batch still contains one fragment per sample, the
offending field is absent from its sample fragment, and the whole batch
passes the unknown-UDF check, so an unknown field never fails the batch. -/
theorem unknown_udf_stripped (validUdfs : List String) (prjUri : String)
    (samples : List FSample) (s : FSample) (hs : s ∈ samples)
    (u : String × String) (hu : u ∈ s.udf_to_value) (hunk : u.1 ∉ validUdfs) :
    (batch_post_samples validUdfs prjUri samples).length = samples.length
    ∧ batch_udf_check validUdfs (batch_post_samples validUdfs prjUri samples) = true
    ∧ (⟨s.name, prjUri, s.location, s.con.uri,
          strip_udfs validUdfs s.udf_to_value⟩ : SubmittedSample)
        ∈ batch_post_samples validUdfs prjUri samples
    ∧ u ∉ strip_udfs validUdfs s.udf_to_value := by
  refine ⟨List.length_map _ _, ?_, ?_, ?_⟩
  · apply List.all_eq_true.mpr
    intro t ht
    obtain ⟨a, _, rfl⟩ := List.mem_map.mp ht
    apply List.all_eq_true.mpr
    intro v hv
    exact (List.mem_filter.mp hv).2
  · exact List.mem_map.mpr ⟨s, hs, rfl⟩
  · intro hcontra
    have := (List.mem_filter.mp hcontra).2
    simp only [decide_eq_true_eq] at this
    exact hunk this

/-- C8 witness: a concrete sample carrying one known and one unknown UDF is
submitted with the unknown field absent, and the batch passes the check. -/
theorem unknown_udf_stripped_witness :
    (batch_post_samples (["Species"]) ("projects/42")
        ([⟨"B", "2", ⟨"Plate1", "96 well plate", "ctu96", "conuri1"⟩,
            [("Species", "mouse"), ("Shoe Size", "9")], none, ""⟩])).length
      = ([⟨"B", "2", ⟨"Plate1", "96 well plate", "ctu96", "conuri1"⟩,
            [("Species", "mouse"), ("Shoe Size", "9")], none, ""⟩] : List FSample).length
    ∧ batch_udf_check (["Species"])
        (batch_post_samples (["Species"]) ("projects/42")
          ([⟨"B", "2", ⟨"Plate1", "96 well plate", "ctu96", "conuri1"⟩,
              [("Species", "mouse"), ("Shoe Size", "9")], none, ""⟩])) = true
    ∧ (⟨"B", "projects/42", "2", "conuri1",
          strip_udfs (["Species"])
            ([("Species", "mouse"), ("Shoe Size", "9")])⟩ : SubmittedSample)
        ∈ batch_post_samples (["Species"]) ("projects/42")
            ([⟨"B", "2", ⟨"Plate1", "96 well plate", "ctu96", "conuri1"⟩,
                [("Species", "mouse"), ("Shoe Size", "9")], none, ""⟩])
    ∧ ("Shoe Size", "9") ∉ strip_udfs (["Species"])
        ([("Species", "mouse"), ("Shoe Size", "9")]) :=
  unknown_udf_stripped (["Species"]) ("projects/42")
    ([⟨"B", "2", ⟨"Plate1", "96 well plate", "ctu96", "conuri1"⟩,
        [("Species", "mouse"), ("Shoe Size", "9")], none, ""⟩])
    ⟨"B", "2", ⟨"Plate1", "96 well plate", "ctu96", "conuri1"⟩,
        [("Species", "mouse"), ("Shoe Size", "9")], none, ""⟩
    (by decide) ("Shoe Size", "9") (by decide) (by decide)

/-- A LIMS_UTILITY creation call issued by `create_clarity_objs`, in issue
order; the `samples` call records the project uri rendered into the sample
payloads (`prj_info.uri`). -/
inductive StepCall
  | researcher
  | project
  | containers
  | samples (prjUri : String)
  deriving DecidableEq, Repr

/-- The outcome of `create_clarity_objs`: the `delete_list` as accumulated up
to return or exception, the creation calls issued, and either the posted
sample uris or the propagated exception. -/
structure CreateResult where
  delete_list : List String
  trace : List StepCall
  result : Except Unit (List String)
  deriving Repr

/-- The `if prj_data.current_form.samples:` half of `create_clarity_objs`:
posts containers then samples, extending the delete-list after each
successful step; with no form samples it posts nothing and returns `[]`. -/
def sample_phase (acc : List String) (tr : List StepCall) (prjUri : String)
    (cons : Except Unit (List String)) (smps : String → Except Unit (List String))
    (fs : List FSample) : CreateResult :=
  if fs.isEmpty then ⟨acc, tr, Except.ok []⟩
  else
    match cons with
    | .error _ => ⟨acc, tr ++ [StepCall.containers], Except.error ()⟩
    | .ok conUris =>
      match smps prjUri with
      | .error _ =>
        ⟨acc ++ conUris, tr ++ [StepCall.containers, StepCall.samples prjUri],
          Except.error ()⟩
      | .ok smpUris =>
        ⟨acc ++ conUris ++ smpUris,
          tr ++ [StepCall.containers, StepCall.samples prjUri],
          Except.ok smpUris⟩

/-- `create_clarity_objs`: when `new_proj` is true it first creates the
researcher then the project (recording each uri in the delete-list, and the
project uri becoming `prj_info.uri`); the container/sample phase follows.
When `new_proj` is false the phase runs against the caller-supplied
`prj_info.uri`.  Each remote step's outcome is an explicit input. -/
def create_clarity_objs (new_proj : Bool) (callerPrjUri : String)
    (res prj : Except Unit String) (cons : Except Unit (List String))
    (smps : String → Except Unit (List String)) (fs : List FSample) :
    CreateResult :=
  if new_proj then
    match res with
    | .error _ => ⟨[], [StepCall.researcher], Except.error ()⟩
    | .ok resUri =>
      match prj with
      | .error _ =>
        ⟨[resUri], [StepCall.researcher, StepCall.project], Except.error ()⟩
      | .ok prjUri =>
        sample_phase [resUri, prjUri] [StepCall.researcher, StepCall.project]
          prjUri cons smps fs
  else
    sample_phase [] [] callerPrjUri cons smps fs

/-- The outcome of one `CLARITY_API.delete(item)` call: success, or an
`requests.exceptions.HTTPError` (the failure mode of the REST delete). -/
inductive DelResult
  | ok
  | httpError
  deriving DecidableEq, Repr

/-- The loop of `delete_items` over an already-reversed list: attempts every
item; an `HTTPError` is caught and the loop continues with the next item.
Returns the attempted items (in attempt order) and the deleted ones. -/
def delete_run (delOut : String → DelResult) :
    List String → List String × List String
  | [] => ([], [])
  | i :: rest =>
    let r := delete_run delOut rest
    match delOut i with
    | .ok => (i :: r.1, i :: r.2)
    | .httpError => (i :: r.1, r.2)

/-- `delete_items`: iterates `delete_list[::-1]`, deleting each item and
swallowing per-item HTTP errors. -/
def delete_items (delOut : String → DelResult) (dl : List String) :
    List String × List String :=
  delete_run delOut dl.reverse

/-- What `route_strategy` does once it runs: a deliberate skip, a successful
dispatch to the mapped routing function, or the unimplemented-route warning
for a form with no mapping. -/
inductive RouteAction
  | skipped
  | routed
  | unimplementedWarn
  deriving DecidableEq, Repr

/-- The skip test of `route_strategy`: the normalized form name is in the
site-supplied unroutable list, or contains the literal REQUEST A QUOTE. -/
def form_skippable (unroutable : List String) (formName : String) : Bool :=
  unroutable.contains formName.trim.toUpper
    || decide (1 < (formName.trim.toUpper.splitOn ("REQUEST A QUOTE")).length)

/-- `LimsUtility.route_strategy`: skips unroutable forms, dispatches to the
mapped routing function (whose outcome, possibly an exception, is the
`routeFn` input), or warns when no mapping exists.  An exception from the
routing function propagates (the `error` branch). -/
def route_strategy (unroutable : List String) (routeFn : Option (Except Unit Unit))
    (formName : String) : Except Unit RouteAction :=
  if form_skippable unroutable formName then Except.ok RouteAction.skipped
  else
    match routeFn with
    | some (.ok _) => Except.ok RouteAction.routed
    | some (.error e) => Except.error e
    | none => Except.ok RouteAction.unimplementedWarn

/-- How `route_samples` ends: the strategy ran to completion, or its
exception was caught and logged as the route warning. -/
inductive RouteOutcome
  | ranOk (action : RouteAction)
  | warned
  deriving DecidableEq, Repr

/-- `route_samples`: resolves artifacts from the posted samples (outside the
try block, so a failure there propagates), then calls `route_strategy` inside
`try/except BaseException`, turning any exception into a logged warning. -/
def route_samples (artsStep : Except Unit (List String))
    (strat : List String → Except Unit RouteAction) : Except Unit RouteOutcome :=
  match artsStep with
  | .error e => Except.error e
  | .ok arts =>
    match strat arts with
    | .ok a => Except.ok (RouteOutcome.ranOk a)
    | .error _ => Except.ok RouteOutcome.warned

/-- The outcome of `post_project`: either the except-branch ran (everything
recorded in the delete-list was handed to `delete_items`) or the else-branch
completed, with the routing outcome when samples were posted. -/
inductive PostResult
  | rolledBack (attempted deleted : List String)
  | completed (sampleUris : List String) (routing : Option RouteOutcome)
  deriving DecidableEq, Repr

/-- `post_project`: runs `create_clarity_objs`; on any exception it deletes
the recorded items and returns normally; on success it routes the posted
samples (when any) via `route_samples`, whose own uncaught failures
propagate. -/
def post_project (new_proj : Bool) (callerPrjUri : String)
    (res prj : Except Unit String) (cons : Except Unit (List String))
    (smps : String → Except Unit (List String)) (fs : List FSample)
    (delOut : String → DelResult) (artsStep : Except Unit (List String))
    (strat : List String → Except Unit RouteAction) : Except Unit PostResult :=
  match (create_clarity_objs new_proj callerPrjUri res prj cons smps fs).result with
  | .error _ =>
    let d := delete_items delOut
      (create_clarity_objs new_proj callerPrjUri res prj cons smps fs).delete_list
    Except.ok (PostResult.rolledBack d.1 d.2)
  | .ok sampleUris =>
    if sampleUris.isEmpty then Except.ok (PostResult.completed sampleUris none)
    else
      match route_samples artsStep strat with
      | .error e => Except.error e
      | .ok r => Except.ok (PostResult.completed sampleUris (some r))

theorem delete_run_eq (delOut : String → DelResult) (l : List String) :
    delete_run delOut l
      = (l, l.filter (fun i =>
          match delOut i with | .ok => true | .httpError => false)) := by
  induction l with
  | nil => simp [delete_run]
  | cons i rest ih =>
    cases h : delOut i <;> simp [delete_run, ih, h, List.filter_cons]

/-- C1: when `create_clarity_objs` raises after any number of created
entities, `post_project` hands the recorded delete-list to `delete_items`,
which attempts deletion of every recorded identifier in strict reverse
creation order regardless of per-item HTTP failures (each failure is
swallowed and the loop continues); in the fully-built case the reverse order
is containers, then project, then researcher, after whatever the failing step
left unrecorded. -/
theorem rollback_reverse_order (new_proj : Bool) (callerPrjUri : String)
    (res prj : Except Unit String) (cons : Except Unit (List String))
    (smps : String → Except Unit (List String)) (fs : List FSample)
    (delOut : String → DelResult) (artsStep : Except Unit (List String))
    (strat : List String → Except Unit RouteAction)
    (h : (create_clarity_objs new_proj callerPrjUri res prj cons smps fs).result
        = Except.error ()) :
    post_project new_proj callerPrjUri res prj cons smps fs delOut artsStep strat
      = Except.ok (PostResult.rolledBack
          (create_clarity_objs new_proj callerPrjUri res prj cons
            smps fs).delete_list.reverse
          ((create_clarity_objs new_proj callerPrjUri res prj cons
            smps fs).delete_list.reverse.filter
            (fun i => match delOut i with | .ok => true | .httpError => false)))
    ∧ (∀ rU pU cU, new_proj = true → res = Except.ok rU → prj = Except.ok pU →
        cons = Except.ok cU → fs.isEmpty = false →
        (create_clarity_objs new_proj callerPrjUri res prj cons
            smps fs).delete_list.reverse
          = cU.reverse ++ [pU, rU]) := by
  constructor
  · unfold post_project
    rw [h]
    simp [delete_items, delete_run_eq]
  · intro rU pU cU hnp hres hprj hcons hfs
    subst hnp hres hprj hcons
    cases hsm : smps pU with
    | error e =>
      simp [create_clarity_objs, sample_phase, hfs, hsm]
    | ok smpUris =>
      rw [show (create_clarity_objs true callerPrjUri (Except.ok rU)
          (Except.ok pU) (Except.ok cU) smps fs).result = Except.ok smpUris by
        simp [create_clarity_objs, sample_phase, hfs, hsm]] at h
      cases h

/-- C1 witness: a failing sample step after researcher, project and two
containers were created triggers deletion attempts on all four identifiers in
reverse creation order, and a failing delete of one container does not stop
the remaining deletions. -/
theorem rollback_reverse_order_witness :
    post_project true ("") (Except.ok ("r")) (Except.ok ("p"))
        (Except.ok (["c1", "c2"])) (fun _ => Except.error ())
        ([⟨"B", "2", ⟨"Plate1", "96 well plate", "", ""⟩, [], none, ""⟩])
        (fun i => if i = "c1" then DelResult.httpError else DelResult.ok)
        (Except.ok []) (fun _ => Except.ok RouteAction.skipped)
      = Except.ok (PostResult.rolledBack (["c2", "c1", "p", "r"])
          (["c2", "p", "r"]))
    ∧ (create_clarity_objs true ("") (Except.ok ("r")) (Except.ok ("p"))
        (Except.ok (["c1", "c2"])) (fun _ => Except.error ())
        ([⟨"B", "2", ⟨"Plate1", "96 well plate", "", ""⟩, [], none,
          ""⟩])).delete_list.reverse
      = (["c1", "c2"] : List String).reverse ++ ["p", "r"] :=
  ⟨(rollback_reverse_order true ("") (Except.ok ("r")) (Except.ok ("p"))
      (Except.ok (["c1", "c2"])) (fun _ => Except.error ())
      ([⟨"B", "2", ⟨"Plate1", "96 well plate", "", ""⟩, [], none, ""⟩])
      (fun i => if i = "c1" then DelResult.httpError else DelResult.ok)
      (Except.ok []) (fun _ => Except.ok RouteAction.skipped) rfl).1,
   (rollback_reverse_order true ("") (Except.ok ("r")) (Except.ok ("p"))
      (Except.ok (["c1", "c2"])) (fun _ => Except.error ())
      ([⟨"B", "2", ⟨"Plate1", "96 well plate", "", ""⟩, [], none, ""⟩])
      (fun i => if i = "c1" then DelResult.httpError else DelResult.ok)
      (Except.ok []) (fun _ => Except.ok RouteAction.skipped) rfl).2
     "r" "p" ["c1", "c2"] rfl rfl rfl rfl rfl⟩

/-- C3 counterexample: with `new_proj = false` the researcher-creation step is
NOT executed: on a concrete run with caller-supplied project uri, form
samples, and all remote steps succeeding, the creation trace contains no
researcher call, contradicting the claim that it still runs. -/
theorem existing_project_researcher_not_called :
    StepCall.researcher
      ∉ (create_clarity_objs false ("projects/42") (Except.ok ("r"))
          (Except.ok ("p")) (Except.ok (["c1"])) (fun _ => Except.ok (["s1"]))
          ([⟨"B", "2", ⟨"Plate1", "96 well plate", "", ""⟩, [], none,
            ""⟩])).trace := by
  decide

/-- C3 (amended): when `new_proj` is false, both the researcher-creation and
the project-creation steps are skipped, and the sample step is issued against
the caller-supplied project uri. -/
theorem existing_project_skips_res_and_prj (callerPrjUri : String)
    (res prj : Except Unit String) (cons : Except Unit (List String))
    (smps : String → Except Unit (List String)) (fs : List FSample) :
    StepCall.researcher
        ∉ (create_clarity_objs false callerPrjUri res prj cons smps fs).trace
    ∧ StepCall.project
        ∉ (create_clarity_objs false callerPrjUri res prj cons smps fs).trace
    ∧ ∀ pu, StepCall.samples pu
        ∈ (create_clarity_objs false callerPrjUri res prj cons smps fs).trace →
        pu = callerPrjUri := by
  have hrw : create_clarity_objs false callerPrjUri res prj cons smps fs
      = sample_phase [] [] callerPrjUri cons smps fs := by
    simp [create_clarity_objs]
  rw [hrw]
  unfold sample_phase
  by_cases hfs : fs.isEmpty
  · simp [hfs]
  · simp only [hfs, if_false, Bool.false_eq_true]
    cases cons with
    | error e => simp
    | ok cU =>
      cases hsm : smps callerPrjUri with
      | error e => simp
      | ok sU => simp

/-- C3 amended witness: on a concrete existing-project run the researcher
step is absent from the trace and the issued sample step used the caller-
supplied uri. -/
theorem existing_project_skips_res_and_prj_witness :
    StepCall.researcher
        ∉ (create_clarity_objs false ("projects/42") (Except.ok ("r"))
            (Except.ok ("p")) (Except.ok (["c1"])) (fun _ => Except.ok (["s1"]))
            ([⟨"B", "2", ⟨"Plate1", "96 well plate", "", ""⟩, [], none,
              ""⟩])).trace
    ∧ ("projects/42" : String) = "projects/42" :=
  ⟨(existing_project_skips_res_and_prj ("projects/42") (Except.ok ("r"))
      (Except.ok ("p")) (Except.ok (["c1"])) (fun _ => Except.ok (["s1"]))
      ([⟨"B", "2", ⟨"Plate1", "96 well plate", "", ""⟩, [], none, ""⟩])).1,
   (existing_project_skips_res_and_prj ("projects/42") (Except.ok ("r"))
      (Except.ok ("p")) (Except.ok (["c1"])) (fun _ => Except.ok (["s1"]))
      ([⟨"B", "2", ⟨"Plate1", "96 well plate", "", ""⟩, [], none, ""⟩])).2.2
     "projects/42" (by decide)⟩

/-- C9: a failing routing strategy (dispatch or resolved routing function) is
caught by `route_samples` and turned into a warning; with artifact resolution
succeeding, `post_project` never propagates an exception from routing, and a
rollback can only have been caused by a `create_clarity_objs` failure, never
by routing. -/
theorem routing_failures_swallowed (new_proj : Bool) (callerPrjUri : String)
    (res prj : Except Unit String) (cons : Except Unit (List String))
    (smps : String → Except Unit (List String)) (fs : List FSample)
    (delOut : String → DelResult) (arts : List String)
    (strat : List String → Except Unit RouteAction) :
    (∃ r, route_samples (Except.ok arts) strat = Except.ok r)
    ∧ (strat arts = Except.error () →
        route_samples (Except.ok arts) strat = Except.ok RouteOutcome.warned)
    ∧ (∃ pr, post_project new_proj callerPrjUri res prj cons smps fs delOut
          (Except.ok arts) strat = Except.ok pr)
    ∧ (∀ a d, post_project new_proj callerPrjUri res prj cons smps fs delOut
          (Except.ok arts) strat = Except.ok (PostResult.rolledBack a d) →
        (create_clarity_objs new_proj callerPrjUri res prj cons smps fs).result
          = Except.error ()) := by
  have hroute : ∃ r, route_samples (Except.ok arts) strat = Except.ok r := by
    cases hst : strat arts with
    | ok a => exact ⟨RouteOutcome.ranOk a, by simp [route_samples, hst]⟩
    | error e => exact ⟨RouteOutcome.warned, by simp [route_samples, hst]⟩
  refine ⟨hroute, ?_, ?_, ?_⟩
  · intro hst
    simp [route_samples, hst]
  · unfold post_project
    cases hc : (create_clarity_objs new_proj callerPrjUri res prj cons
        smps fs).result with
    | error e => exact ⟨_, rfl⟩
    | ok sampleUris =>
      by_cases he : sampleUris.isEmpty
      · simp [he]
      · obtain ⟨r, hr⟩ := hroute
        simp [he, hr]
  · intro a d hpp
    cases hc : (create_clarity_objs new_proj callerPrjUri res prj cons
        smps fs).result with
    | error e => cases e; rfl
    | ok sampleUris =>
      exfalso
      unfold post_project at hpp
      rw [hc] at hpp
      by_cases he : sampleUris.isEmpty
      · simp [he] at hpp
      · obtain ⟨r, hr⟩ := hroute
        simp [he, hr] at hpp

/-- C9 witness: a concrete run whose routing strategy raises is warned, and a
concrete rollback traces back to a creation failure. -/
theorem routing_failures_swallowed_witness :
    route_samples (Except.ok ([] : List String)) (fun _ => Except.error ())
        = Except.ok RouteOutcome.warned
    ∧ (create_clarity_objs true ("") (Except.error ()) (Except.ok ("p"))
        (Except.ok []) (fun _ => Except.ok []) []).result = Except.error () :=
  ⟨(routing_failures_swallowed true ("") (Except.error ()) (Except.ok ("p"))
      (Except.ok []) (fun _ => Except.ok []) [] (fun _ => DelResult.ok) []
      (fun _ => Except.error ())).2.1 rfl,
   (routing_failures_swallowed true ("") (Except.error ()) (Except.ok ("p"))
      (Except.ok []) (fun _ => Except.ok []) [] (fun _ => DelResult.ok) []
      (fun _ => Except.error ())).2.2.2 [] [] rfl⟩
